import Mathlib

/-!
A verification development for the julezz CLI/bot (Rust sources under
`src/`).  The definitions below are a shallow embedding of the relevant
Rust code:

* `src/api.rs` — the incremental activity sync engine
  (`JulesClient::fetch_activities`, `JulesClient::list_cached_activities`).
  The per-session cache directory (the three files `messages.json`,
  `last_page.json`, `page_token.json`) is modelled as an explicit record
  `SessionCacheDir`; each field is `none` when the file is absent and
  `some r` when it exists, where `r : Except String _` is the combined
  outcome of reading and parsing the file (the Rust code surfaces both
  read errors and parse errors as `JulesError::ApiError` strings).
  File writes are modelled as always succeeding.  The remote endpoint is
  an oracle `Fetch`; the unbounded Rust `loop` is given explicit fuel,
  with exhaustion producing a distinguished error.
* `src/resolve.rs` — `resolve_session_identifier_and_index`.  The two
  cache reads the Rust function performs (`read_sessions`,
  `read_aliases`) are passed in as `Except`-valued arguments, preserving
  the error-propagation structure (`?`), and the alias `HashMap` is
  modelled as an association list.
* `src/main.rs` — `manage_sessions_cache` (roster reconciliation) and
  `update_aliases_after_deletion`.
* `src/bot.rs` — the notification watcher loop inside `start_bot`
  (one per-session step of a tick, and the sweep over all sessions);
  the process-local cursor map `last_activities` is modelled as a
  function `String → Option String`.
-/

namespace Julezz

/-- Embeds `GithubRepoContext` from `src/api.rs`. -/
structure GithubRepoContext where
  starting_branch : String
deriving DecidableEq

/-- Embeds `SourceContext` from `src/api.rs`. -/
structure SourceContext where
  source : String
  github_repo_context : Option GithubRepoContext
deriving DecidableEq

/-- Embeds `Session` from `src/api.rs`. -/
structure Session where
  name : String
  id : String
  state : Option String
  title : String
  source_context : Option SourceContext
  pull_request_url : Option String
deriving DecidableEq

/-- Embeds `AgentMessaged` from `src/api.rs`. -/
structure AgentMessaged where
  agent_message : String
deriving DecidableEq

/-- Embeds `UserMessaged` from `src/api.rs`. -/
structure UserMessaged where
  user_message : String
deriving DecidableEq

/-- Embeds `ProgressUpdated` from `src/api.rs`. -/
structure ProgressUpdated where
  title : Option String
  description : Option String
deriving DecidableEq

/-- Embeds `PlanApproved` from `src/api.rs`. -/
structure PlanApproved where
  plan_id : Option String
deriving DecidableEq

/-- Embeds `Step` from `src/api.rs`. -/
structure Step where
  id : String
  title : String
  description : Option String
deriving DecidableEq

/-- Embeds `Plan` from `src/api.rs`. -/
structure Plan where
  id : String
  steps : List Step
deriving DecidableEq

/-- Embeds `PlanGenerated` from `src/api.rs`. -/
structure PlanGenerated where
  plan : Plan
deriving DecidableEq

/-- Embeds `SessionCompleted` from `src/api.rs` (an empty struct). -/
structure SessionCompleted where
deriving DecidableEq

/-- Embeds `BashOutput` from `src/api.rs`. -/
structure BashOutput where
  command : String
  output : String
deriving DecidableEq

/-- Embeds `GitPatch` from `src/api.rs`. -/
structure GitPatch where
  unidiff_patch : Option String
  base_commit_id : String
deriving DecidableEq

/-- Embeds `ChangeSet` from `src/api.rs`. -/
structure ChangeSet where
  source : String
  git_patch : GitPatch
  suggested_commit_message : Option String
deriving DecidableEq

/-- Embeds `Artifact` from `src/api.rs`. -/
structure Artifact where
  bash_output : Option BashOutput
  change_set : Option ChangeSet
deriving DecidableEq

/-- Embeds `Activity` from `src/api.rs`. -/
structure Activity where
  name : String
  id : String
  title : Option String
  create_time : String
  originator : String
  agent_messaged : Option AgentMessaged
  user_messaged : Option UserMessaged
  progress_updated : Option ProgressUpdated
  plan_approved : Option PlanApproved
  plan_generated : Option PlanGenerated
  session_completed : Option SessionCompleted
  artifacts : Option (List Artifact)
deriving DecidableEq

/-- Embeds `ListActivitiesResponse` from `src/api.rs`: one page of the
remote activity log. -/
structure Page where
  activities : List Activity
  next_page_token : Option String
deriving DecidableEq

/-- The remote `list_activities` endpoint as an oracle: given the request
page token (none = initial page) it returns a page or an error
(`RemoteError`/`TransportError`, both `JulesError` values in the code,
modelled here as their message strings). -/
def Fetch : Type := Option String → Except String Page

/-- The per-session cache directory of `fetch_activities` /
`list_cached_activities` in `src/api.rs`: `messages.json` (stable
activities), `last_page.json` (tail activities), `page_token.json`
(continuation token).  A field is `none` when the file is absent, and
`some r` when it exists with `r` the combined read+parse outcome. -/
structure SessionCacheDir where
  messages : Option (Except String (List Activity))
  last_page : Option (Except String (List Activity))
  page_token : Option (Except String String)

/-- Embeds the read of `messages.json` shared by `fetch_activities` and
`list_cached_activities` (`src/api.rs` lines 441-448 and 403-410): if
the file is absent the stable list defaults to empty, otherwise a read
or parse failure is an error. -/
def readStableActivities (dir : SessionCacheDir) : Except String (List Activity) :=
  match dir.messages with
  | none => Except.ok []
  | some r => r

/-- Embeds the read of `page_token.json` in `fetch_activities`
(`src/api.rs` lines 450-456): `fs::read_to_string(..).map_err(..).ok()`
— a read failure is discarded by `.ok()` and treated like an absent
file. -/
def readPageTokenLossy (dir : SessionCacheDir) : Option String :=
  match dir.page_token with
  | none => none
  | some (Except.ok s) => some s
  | some (Except.error _) => none

/-- Error value used to model fuel exhaustion of the page loop (the Rust
loop is unbounded; any finite remote log terminates it). -/
def pageLoopFuelError : String := "page loop fuel exhausted"

/-- Embeds the `loop` block of `fetch_activities` (`src/api.rs` lines
462-491).  State per iteration: the token used for the request
(`page_token`, initially the persisted continuation token) and the
accumulator `new_activities_to_make_stable`.  A response with a next
page token seals the page (activities appended to the accumulator, loop
continues with the next token); a response without one ends the loop,
returning `(new_activities_to_make_stable, last_page_activities,
last_page_token)` where `last_page_token` is the token that was used to
request the final page. -/
def fetch_activities_loop (fetch : Fetch) :
    Nat → Option String → List Activity →
    Except String (List Activity × List Activity × Option String)
  | 0, _, _ => Except.error pageLoopFuelError
  | fuel + 1, tok, acc =>
    match fetch tok with
    | Except.error e => Except.error e
    | Except.ok page =>
      match page.next_page_token with
      | some next => fetch_activities_loop fetch fuel (some next) (acc ++ page.activities)
      | none => Except.ok (acc, page.activities, tok)

/-- Embeds `JulesClient::fetch_activities` (`src/api.rs` lines 426-520)
as a state transformer on the session cache directory.  It reads the
stable activities and (lossily) the continuation token, runs the page
loop, and only after the loop succeeds rewrites the three files:
`messages.json` becomes stable ++ newly_stable, `last_page.json` is
replaced by the tail page, and `page_token.json` is written with the
tail's request token or removed when that token is absent.  On any
error the directory is returned unchanged (the source performs no
writes before the loop completes). -/
def fetch_activities (fuel : Nat) (fetch : Fetch) (dir : SessionCacheDir) :
    SessionCacheDir × Except String (List Activity) :=
  match readStableActivities dir with
  | Except.error e => (dir, Except.error e)
  | Except.ok stable_activities =>
    match fetch_activities_loop fetch fuel (readPageTokenLossy dir) [] with
    | Except.error e => (dir, Except.error e)
    | Except.ok (new_activities_to_make_stable, last_page_activities, last_page_token) =>
      let stable' := stable_activities ++ new_activities_to_make_stable
      let dir' : SessionCacheDir :=
        { messages := some (Except.ok stable')
          last_page := some (Except.ok last_page_activities)
          page_token := last_page_token.map Except.ok }
      (dir', Except.ok (stable' ++ last_page_activities))

/-- Embeds `JulesClient::list_cached_activities` (`src/api.rs` lines
394-423): read `messages.json` (absent means empty), then, if
`last_page.json` exists, read it and append its activities; no remote
call is made. -/
def list_cached_activities (dir : SessionCacheDir) : Except String (List Activity) :=
  match readStableActivities dir with
  | Except.error e => Except.error e
  | Except.ok activities =>
    match dir.last_page with
    | none => Except.ok activities
    | some (Except.error e) => Except.error e
    | some (Except.ok last_page_activities) =>
      Except.ok (activities ++ last_page_activities)

/-- Embeds `CachedSession` from `src/cache.rs`. -/
structure CachedSession where
  id : String
  title : String
  source_context : Option SourceContext
deriving DecidableEq

/-- The alias map (`type Aliases = HashMap<String, String>` in
`src/cache.rs`), modelled as an association list of its entries. -/
abbrev Aliases : Type := List (String × String)

/-- Error message for an empty roster (`src/resolve.rs` line 14). -/
def emptyRosterMsg : String := "No sessions found in cache. Run \x60sessions list\x60 to refresh."

/-- Error message for an unknown alias (`src/resolve.rs` line 21). -/
def aliasNotFoundMsg (identifier : String) : String :=
  "Alias \x27" ++ identifier ++ "\x27 not found."

/-- Error message for a stale alias (`src/resolve.rs` lines 27-32). -/
def staleAliasMsg (session_id identifier : String) : String :=
  "Session ID \x27" ++ session_id ++ "\x27 for alias \x27" ++ identifier ++
    "\x27 not found in cache. Run \x60sessions list\x60."

/-- Error message for index zero (`src/resolve.rs` line 37). -/
def nonPositiveIndexMsg : String := "Index must be greater than 0"

/-- Error message for an out-of-range index (`src/resolve.rs` lines
43-46). -/
def indexOutOfBoundsMsg : String :=
  "Session index out of bounds. Run \x60sessions list\x60 to see available sessions."

/-- Error message for an unknown literal session ID (`src/resolve.rs`
lines 54-59). -/
def sessionNotFoundMsg (identifier : String) : String :=
  "Session ID \x27" ++ identifier ++ "\x27 not found in cache. Run \x60sessions list\x60."

/-- Embeds Rust `identifier.parse::<usize>()` on a 64-bit target: an
optional leading plus sign, then one or more ASCII digits, and the value
must fit in 64 bits (overflow makes the parse fail, sending the
identifier to the literal-session-ID branch). -/
def parseUsize (s : String) : Option Nat :=
  let ds := match s.data with
    | '+' :: rest => rest
    | l => l
  if ds.isEmpty then none
  else if ds.all (fun c => c.isDigit) then
    let n := ds.foldl (fun acc c => acc * 10 + (c.toNat - 48)) 0
    if n < 2 ^ 64 then some n else none
  else none

/-- Embeds `resolve_session_identifier_and_index` from `src/resolve.rs`.
The Rust function constructs a `Cache` and reads the sessions file (and,
in the alias branch only, the aliases file); those two fallible reads
are passed here as `Except`-valued arguments so that their `?`
propagation is preserved. -/
def resolve_session_identifier_and_index (identifier : String)
    (sessionsRead : Except String (List CachedSession))
    (aliasesRead : Except String Aliases) : Except String (String × Nat) :=
  match sessionsRead with
  | Except.error e => Except.error e
  | Except.ok sessions =>
    if sessions.isEmpty then Except.error emptyRosterMsg
    else if identifier.data.head? = some '@' then
      match aliasesRead with
      | Except.error e => Except.error e
      | Except.ok aliases =>
        match List.lookup identifier aliases with
        | none => Except.error (aliasNotFoundMsg identifier)
        | some session_id =>
          match sessions.findIdx? (fun s => s.id == session_id) with
          | some index => Except.ok (session_id, index + 1)
          | none => Except.error (staleAliasMsg session_id identifier)
    else
      match parseUsize identifier with
      | some index =>
        if index = 0 then Except.error nonPositiveIndexMsg
        else
          match sessions.get? (index - 1) with
          | some session => Except.ok (session.id, index)
          | none => Except.error indexOutOfBoundsMsg
      | none =>
        match sessions.findIdx? (fun s => s.id == identifier) with
        | some index => Except.ok (identifier, index + 1)
        | none => Except.error (sessionNotFoundMsg identifier)

/-- Embeds `resolve_session_identifier` from `src/resolve.rs`. -/
def resolve_session_identifier (identifier : String)
    (sessionsRead : Except String (List CachedSession))
    (aliasesRead : Except String Aliases) : Except String String :=
  (resolve_session_identifier_and_index identifier sessionsRead aliasesRead).map
    (fun p => p.1)

/-- Embeds `HashMap::insert` on the alias map (used by `manage_aliases`
in `src/main.rs`): the key's previous binding, if any, is replaced. -/
def aliasInsert (aliases : Aliases) (alias_name session_id : String) : Aliases :=
  (alias_name, session_id) :: aliases.filter (fun p => p.1 != alias_name)

/-- Embeds `update_aliases_after_deletion` from `src/main.rs` (lines
561-566): `aliases.retain(|_, session_id| session_id != deleted)`. -/
def update_aliases_after_deletion (deleted_session_id : String)
    (aliases : Aliases) : Aliases :=
  aliases.filter (fun p => p.2 != deleted_session_id)

/-- Embeds the cache-reconciliation part of `manage_sessions_cache` from
`src/main.rs` (lines 485-514): retain cached entries whose ID is live,
compute the surviving ID set, append every listed session whose ID is
not in that set (the set is fixed before the append loop), and retain
aliases whose target ID is live.  Returns the new roster and alias
entries (display formatting is omitted). -/
def manage_sessions_cache (sessions_list : List Session)
    (cached_sessions : List CachedSession) (aliases : Aliases) :
    List CachedSession × Aliases :=
  let live_session_ids := sessions_list.map (fun s => s.id)
  let retained := cached_sessions.filter (fun cs => live_session_ids.contains cs.id)
  let cached_session_ids := retained.map (fun cs => cs.id)
  let appended := retained ++
    (sessions_list.filter (fun s => !(cached_session_ids.contains s.id))).map
      (fun s => { id := s.id, title := s.title, source_context := s.source_context })
  let aliases' := aliases.filter (fun p => live_session_ids.contains p.2)
  (appended, aliases')

/-- Embeds `escape_markdown_v2` from `src/bot.rs`: each reserved
MarkdownV2 character is prefixed with a backslash. -/
def escapeChar (ch : Char) : List Char :=
  if ch = '_' ∨ ch = '*' ∨ ch = '[' ∨ ch = ']' ∨ ch = '(' ∨ ch = ')' ∨
      ch = '~' ∨ ch = '\x60' ∨ ch = '>' ∨ ch = '#' ∨ ch = '+' ∨ ch = '-' ∨
      ch = '=' ∨ ch = '|' ∨ ch = '\x7b' ∨ ch = '\x7d' ∨ ch = '.' ∨ ch = '!'
  then ['\\', ch] else [ch]

/-- Embeds `escape_markdown_v2` from `src/bot.rs` (lines 14-28). -/
def escape_markdown_v2 (text : String) : String :=
  String.mk (text.data.flatMap escapeChar)

/-- Embeds the session display string of the watcher (`src/bot.rs` lines
745-750): bracketed escaped aliases when the session has aliases,
otherwise its escaped title between asterisks. -/
def sessionDisplay (aliasesFor : Option (List String)) (title : String) : String :=
  match aliasesFor with
  | some as_ => "[" ++ String.intercalate (", ") (as_.map escape_markdown_v2) ++ "]"
  | none => "*" ++ escape_markdown_v2 title ++ "*"

/-- Embeds the notification text construction of the watcher
(`src/bot.rs` lines 752-775): agent message, plan generated, progress
update, or new artifacts — in that order; any other activity kind
produces no message. -/
def notification_message (session_display : String) (a : Activity) :
    Option String :=
  match a.agent_messaged with
  | some agent_messaged =>
    some ("New message in session " ++ session_display ++ ":\n" ++
      escape_markdown_v2 agent_messaged.agent_message)
  | none =>
    if a.plan_generated.isSome then
      some ("Plan generated for session " ++ session_display ++ "\\.")
    else
      match a.progress_updated with
      | some progress =>
        some ("Progress update for session " ++ session_display ++ ":\n" ++
          escape_markdown_v2 (progress.title.getD ("No title")))
      | none =>
        if a.artifacts.isSome then
          some ("New artifacts generated for session " ++ session_display ++ "\\.")
        else none

/-- Embeds the last-agent-activity selection of the watcher
(`src/bot.rs` line 740): the last activity whose originator is
`"agent"`. -/
def lastAgentActivity (activities : List Activity) : Option Activity :=
  (activities.filter (fun a => a.originator == "agent")).getLast?

/-- Embeds one session's step of a watcher tick (`src/bot.rs` lines
731-784).  Input: the session's cursor (`last_activities` entry), its
display string, and the outcome of `fetch_activities` for it.  Output:
the number of notifications emitted (0 or 1) and the new cursor.  A
fetch error skips the session (cursor unchanged); so does an activity
list with no agent activity.  When the last agent activity's ID differs
from the cursor, a notification is emitted exactly when
`notification_message` produces one, and the cursor is advanced to the
new ID in either case. -/
def tickSession (cursor : Option String) (display : String)
    (fetched : Except String (List Activity)) : Nat × Option String :=
  match fetched with
  | Except.error _ => (0, cursor)
  | Except.ok activities =>
    match lastAgentActivity activities with
    | none => (0, cursor)
    | some last_activity =>
      if cursor = some last_activity.id then (0, cursor)
      else
        (if (notification_message display last_activity).isSome then 1 else 0,
          some last_activity.id)

/-- One session's data for a watcher sweep: its ID, its display string,
and the outcome of its `fetch_activities` call this tick. -/
structure WatchedSession where
  session_id : String
  display : String
  fetched : Except String (List Activity)

/-- Embeds the per-tick sweep of the watcher over all sessions
(`src/bot.rs` lines 731-784): each session is processed in order with
`tickSession` against the shared cursor map; the totals of emitted
notifications are summed. -/
def tickSweep : List WatchedSession → (String → Option String) →
    Nat × (String → Option String)
  | [], cursors => (0, cursors)
  | w :: rest, cursors =>
    let r := tickSession (cursors w.session_id) w.display w.fetched
    let rec_ := tickSweep rest (Function.update cursors w.session_id r.2)
    (r.1 + rec_.1, rec_.2)

/-- Iterates `tickSession` for one session over `n` consecutive ticks
during which the fetched activity list stays the same, returning the
total number of notifications emitted and the final cursor. -/
def ticksFor : Nat → Option String → String → Except String (List Activity) →
    Nat × Option String
  | 0, cursor, _, _ => (0, cursor)
  | n + 1, cursor, display, fetched =>
    let r := tickSession cursor display fetched
    let rest := ticksFor n r.2 display fetched
    (r.1 + rest.1, rest.2)

/-- A minimal activity value for concrete tests: all optional payloads
absent (the data model's untyped activity). -/
def mkActivity (id originator : String) : Activity :=
  { name := "sessions/s/activities/" ++ id
    id := id
    title := none
    create_time := "2024-01-01T00:00:00Z"
    originator := originator
    agent_messaged := none
    user_messaged := none
    progress_updated := none
    plan_approved := none
    plan_generated := none
    session_completed := none
    artifacts := none }

/-- A concrete remote log for tests: one sealed page (token `T` beyond
it) holding activity `a1`, then a tail page holding `a2`. -/
def fetchTwoPages : Fetch := fun tok =>
  match tok with
  | none => Except.ok { activities := [mkActivity ("a1") ("user")], next_page_token := some ("T") }
  | some t =>
    if t = "T" then
      Except.ok { activities := [mkActivity ("a2") ("agent")], next_page_token := none }
    else Except.error ("unknown page token")

/-- A concrete remote log for tests: a single, initial tail page with no
activities. -/
def fetchEmptyTail : Fetch := fun _ =>
  Except.ok { activities := [], next_page_token := none }

/-- A concrete remote endpoint for tests that fails every request. -/
def fetchAlwaysError : Fetch := fun _ => Except.error ("service unreachable")

/-- A fresh session cache directory: none of the three files exists. -/
def emptyDir : SessionCacheDir :=
  { messages := none, last_page := none, page_token := none }

/-- A session cache directory whose `page_token.json` exists but whose
read fails. -/
def tokenErrorDir : SessionCacheDir :=
  { messages := none, last_page := none, page_token := some (Except.error ("disk read failed")) }

/-- A concrete agent activity carrying an agent message (a notifiable
kind for the watcher). -/
def agentMsgActivity : Activity :=
  { mkActivity ("act-2") ("agent") with agent_messaged := some { agent_message := "hi" } }

/-- A concrete agent activity of the session-completed kind, which is
not one of the watcher's four notifiable kinds. -/
def completedActivity : Activity :=
  { mkActivity ("act-1") ("agent") with session_completed := some {} }

/-- A concrete two-entry roster for tests. -/
def rosterAB : List CachedSession :=
  [{ id := "sess-a", title := "A", source_context := none },
   { id := "sess-b", title := "B", source_context := none }]

end Julezz

namespace Julezz

/-- C1: within one sync, a page whose response carries a next page token
is sealed (activities appended to the `newly_stable` accumulator, loop
continues from the next token); the first page without a next token
becomes the new tail and the token used to request it becomes the
persisted continuation token; after the loop, `newly_stable` is appended
to the persisted stable list, the tail replaces the persisted tail
wholesale, and the token file is written with the tail's request token
or cleared when that token is absent (initial page). -/
theorem sync_seals_pages_and_persists_tail
    (fetch : Fetch) (fuel : Nat) (tok : Option String) (acc : List Activity)
    (page : Page) (next : String) (dir : SessionCacheDir)
    (stable ns tl : List Activity) (ttok : Option String) :
    (fetch tok = Except.ok page → page.next_page_token = some next →
      fetch_activities_loop fetch (fuel + 1) tok acc =
        fetch_activities_loop fetch fuel (some next) (acc ++ page.activities)) ∧
    (fetch tok = Except.ok page → page.next_page_token = none →
      fetch_activities_loop fetch (fuel + 1) tok acc =
        Except.ok (acc, page.activities, tok)) ∧
    (readStableActivities dir = Except.ok stable →
      fetch_activities_loop fetch fuel (readPageTokenLossy dir) [] =
        Except.ok (ns, tl, ttok) →
      fetch_activities fuel fetch dir =
        ({ messages := some (Except.ok (stable ++ ns))
           last_page := some (Except.ok tl)
           page_token := ttok.map Except.ok },
         Except.ok ((stable ++ ns) ++ tl))) := by
  refine ⟨?_, ?_, ?_⟩
  · intro h1 h2
    simp [fetch_activities_loop, h1, h2]
  · intro h1 h2
    simp [fetch_activities_loop, h1, h2]
  · intro h1 h2
    simp [fetch_activities, h1, h2]

/-- Witness for C1 on the concrete two-page remote log: the sealed page
goes to stable, the tail page and its request token are persisted. -/
theorem sync_seals_pages_and_persists_tail_witness :
    readStableActivities emptyDir = Except.ok [] ∧
    fetch_activities_loop fetchTwoPages 2 (readPageTokenLossy emptyDir) [] =
      Except.ok ([] ++ [mkActivity ("a1") ("user")], [mkActivity ("a2") ("agent")], some ("T")) ∧
    fetch_activities 2 fetchTwoPages emptyDir =
      ({ messages := some (Except.ok ([] ++ ([] ++ [mkActivity ("a1") ("user")])))
         last_page := some (Except.ok [mkActivity ("a2") ("agent")])
         page_token := (some ("T")).map Except.ok },
       Except.ok (([] ++ ([] ++ [mkActivity ("a1") ("user")])) ++ [mkActivity ("a2") ("agent")])) :=
  ⟨rfl, rfl,
    (sync_seals_pages_and_persists_tail fetchTwoPages 2 none []
      { activities := [], next_page_token := none } ("") emptyDir []
      ([] ++ [mkActivity ("a1") ("user")]) [mkActivity ("a2") ("agent")] (some ("T"))).2.2
      rfl rfl⟩

/-- C3: a failed page request aborts the loop with that error, and a
sync whose page loop fails returns the error with the session cache
directory unchanged — none of the three persisted values is modified,
since the writes happen only after the loop completes. -/
theorem sync_error_leaves_cache_unchanged
    (fetch : Fetch) (fuel : Nat) (tok : Option String) (acc : List Activity)
    (e : String) (dir : SessionCacheDir) (stable : List Activity) :
    (fetch tok = Except.error e →
      fetch_activities_loop fetch (fuel + 1) tok acc = Except.error e) ∧
    (readStableActivities dir = Except.ok stable →
      fetch_activities_loop fetch fuel (readPageTokenLossy dir) [] = Except.error e →
      fetch_activities fuel fetch dir = (dir, Except.error e)) := by
  constructor
  · intro h1
    simp [fetch_activities_loop, h1]
  · intro h1 h2
    simp [fetch_activities, h1, h2]

/-- Witness for C3 on the always-failing remote endpoint and a fresh
cache directory. -/
theorem sync_error_leaves_cache_unchanged_witness :
    fetchAlwaysError none = Except.error ("service unreachable") ∧
    readStableActivities emptyDir = Except.ok [] ∧
    fetch_activities_loop fetchAlwaysError 1 (readPageTokenLossy emptyDir) [] =
      Except.error ("service unreachable") ∧
    fetch_activities 1 fetchAlwaysError emptyDir =
      (emptyDir, Except.error ("service unreachable")) :=
  ⟨rfl, rfl,
    (sync_error_leaves_cache_unchanged fetchAlwaysError 0 none []
      ("service unreachable") emptyDir []).1 rfl,
    (sync_error_leaves_cache_unchanged fetchAlwaysError 1 none []
      ("service unreachable") emptyDir []).2 rfl rfl⟩

/-- Helper: a successful page loop ends on a page whose re-request (with
the token recorded for the tail) yields exactly the tail activities and
no next token. -/
theorem fetch_activities_loop_tail_fetch (fetch : Fetch) :
    ∀ (fuel : Nat) (tok ttok : Option String) (acc ns tl : List Activity),
      fetch_activities_loop fetch fuel tok acc = Except.ok (ns, tl, ttok) →
      fetch ttok = Except.ok { activities := tl, next_page_token := none } := by
  intro fuel
  induction fuel with
  | zero =>
    intro tok ttok acc ns tl h
    simp [fetch_activities_loop] at h
  | succ n ih =>
    intro tok ttok acc ns tl h
    rw [fetch_activities_loop] at h
    cases hf : fetch tok with
    | error e => rw [hf] at h; simp at h
    | ok page =>
      rw [hf] at h
      dsimp only at h
      cases hn : page.next_page_token with
      | some next =>
        rw [hn] at h
        exact ih _ _ _ _ _ h
      | none =>
        rw [hn] at h
        simp only [Except.ok.injEq, Prod.mk.injEq] at h
        obtain ⟨-, h2, h3⟩ := h
        subst h2
        subst h3
        rw [hf]
        cases page with
        | mk activities next_page_token =>
          simp at hn
          simp [hn]

/-- Helper: the lossy token read of a directory whose token file was
written from an optional token recovers that token. -/
theorem readPageTokenLossy_map_ok (o : Option String) (m lp : Option (Except String (List Activity))) :
    readPageTokenLossy { messages := m, last_page := lp, page_token := o.map Except.ok } = o := by
  cases o <;> simp [readPageTokenLossy]

/-- C2: when the remote log does not change between two sync calls (the
same fetch oracle serves both), a second sync after a successful one
returns the same `stable ++ tail` list and leaves the whole persisted
state — in particular the stable list — exactly as the first sync wrote
it. -/
theorem sync_idempotent_without_new_activity
    (fuel fuel' : Nat) (fetch : Fetch) (dir dir₁ : SessionCacheDir)
    (res : List Activity)
    (h : fetch_activities fuel fetch dir = (dir₁, Except.ok res))
    (h' : 1 ≤ fuel') :
    fetch_activities fuel' fetch dir₁ = (dir₁, Except.ok res) := by
  rw [fetch_activities] at h
  cases hs : readStableActivities dir with
  | error e => rw [hs] at h; simp at h
  | ok stable =>
    rw [hs] at h
    cases hl : fetch_activities_loop fetch fuel (readPageTokenLossy dir) [] with
    | error e => rw [hl] at h; simp at h
    | ok r =>
      obtain ⟨ns, tl, ttok⟩ := r
      rw [hl] at h
      simp only [Prod.mk.injEq, Except.ok.injEq] at h
      obtain ⟨hdir, hres⟩ := h
      have htail := fetch_activities_loop_tail_fetch fetch fuel _ _ _ _ _ hl
      obtain ⟨m, rfl⟩ : ∃ m, fuel' = m + 1 := ⟨fuel' - 1, by omega⟩
      rw [fetch_activities]
      rw [← hdir]
      have hs' : readStableActivities
          { messages := some (Except.ok (stable ++ ns))
            last_page := some (Except.ok tl)
            page_token := ttok.map Except.ok } = Except.ok (stable ++ ns) := rfl
      rw [hs', readPageTokenLossy_map_ok]
      rw [fetch_activities_loop, htail]
      simp [← hres]

/-- Witness for C2 on the concrete two-page remote log: the second sync
reproduces the first sync's result and state. -/
theorem sync_idempotent_without_new_activity_witness :
    fetch_activities 2 fetchTwoPages emptyDir =
      ({ messages := some (Except.ok [mkActivity ("a1") ("user")])
         last_page := some (Except.ok [mkActivity ("a2") ("agent")])
         page_token := some (Except.ok ("T")) },
       Except.ok [mkActivity ("a1") ("user"), mkActivity ("a2") ("agent")]) ∧
    (1 : Nat) ≤ 1 ∧
    fetch_activities 1 fetchTwoPages
      { messages := some (Except.ok [mkActivity ("a1") ("user")])
        last_page := some (Except.ok [mkActivity ("a2") ("agent")])
        page_token := some (Except.ok ("T")) } =
      ({ messages := some (Except.ok [mkActivity ("a1") ("user")])
         last_page := some (Except.ok [mkActivity ("a2") ("agent")])
         page_token := some (Except.ok ("T")) },
       Except.ok [mkActivity ("a1") ("user"), mkActivity ("a2") ("agent")]) :=
  ⟨rfl, le_refl 1,
    sync_idempotent_without_new_activity 2 1 fetchTwoPages emptyDir _ _ rfl (le_refl 1)⟩

/-- C10: immediately after a successful sync, the cache-only read path
returns exactly the list the sync returned (and it performs no remote
call — `list_cached_activities` takes no fetch oracle at all). -/
theorem cached_read_agrees_with_sync
    (fuel : Nat) (fetch : Fetch) (dir dir' : SessionCacheDir)
    (res : List Activity)
    (h : fetch_activities fuel fetch dir = (dir', Except.ok res)) :
    list_cached_activities dir' = Except.ok res := by
  rw [fetch_activities] at h
  cases hs : readStableActivities dir with
  | error e => rw [hs] at h; simp at h
  | ok stable =>
    rw [hs] at h
    cases hl : fetch_activities_loop fetch fuel (readPageTokenLossy dir) [] with
    | error e => rw [hl] at h; simp at h
    | ok r =>
      obtain ⟨ns, tl, ttok⟩ := r
      rw [hl] at h
      simp only [Prod.mk.injEq, Except.ok.injEq] at h
      obtain ⟨hdir, hres⟩ := h
      rw [← hdir, ← hres]
      rfl

/-- Witness for C10 on the concrete two-page remote log. -/
theorem cached_read_agrees_with_sync_witness :
    fetch_activities 2 fetchTwoPages emptyDir =
      ({ messages := some (Except.ok [mkActivity ("a1") ("user")])
         last_page := some (Except.ok [mkActivity ("a2") ("agent")])
         page_token := some (Except.ok ("T")) },
       Except.ok [mkActivity ("a1") ("user"), mkActivity ("a2") ("agent")]) ∧
    list_cached_activities
      { messages := some (Except.ok [mkActivity ("a1") ("user")])
        last_page := some (Except.ok [mkActivity ("a2") ("agent")])
        page_token := some (Except.ok ("T")) } =
      Except.ok [mkActivity ("a1") ("user"), mkActivity ("a2") ("agent")] :=
  ⟨rfl, cached_read_agrees_with_sync 2 fetchTwoPages emptyDir _ _ rfl⟩

/-- C9 counterexample: a cache directory whose continuation-token file
exists but whose read fails.  The sync succeeds anyway — the read
failure is discarded by the `.ok()` at `src/api.rs` lines 450-456
instead of being surfaced to the caller. -/
theorem token_read_error_not_surfaced_counterexample :
    tokenErrorDir.page_token = some (Except.error ("disk read failed")) ∧
    fetch_activities 1 fetchEmptyTail tokenErrorDir =
      ({ messages := some (Except.ok [])
         last_page := some (Except.ok [])
         page_token := none },
       Except.ok []) :=
  ⟨rfl, rfl⟩

/-- C9 amended: every modelled cache read/parse failure is surfaced to
the immediate caller — the stable-activities read in both the sync and
the cache-only read path, the tail read in the cache-only path, and the
roster read in the resolver — with the single exception of the sync
engine's read of the persisted continuation token, whose failure is
discarded and treated as an absent token. -/
theorem cache_read_errors_surfaced_except_token
    (fuel : Nat) (fetch : Fetch) (dir : SessionCacheDir) (e : String)
    (identifier : String) (aliasesRead : Except String Aliases)
    (stable : List Activity) :
    (dir.messages = some (Except.error e) →
      fetch_activities fuel fetch dir = (dir, Except.error e)) ∧
    (dir.messages = some (Except.error e) →
      list_cached_activities dir = Except.error e) ∧
    (dir.messages = some (Except.ok stable) →
      dir.last_page = some (Except.error e) →
      list_cached_activities dir = Except.error e) ∧
    (resolve_session_identifier_and_index identifier (Except.error e) aliasesRead =
      Except.error e) ∧
    (readPageTokenLossy { dir with page_token := some (Except.error e) } = none) := by
  refine ⟨?_, ?_, ?_, ?_, ?_⟩
  · intro h1
    simp [fetch_activities, readStableActivities, h1]
  · intro h1
    simp [list_cached_activities, readStableActivities, h1]
  · intro h1 h2
    simp [list_cached_activities, readStableActivities, h1, h2]
  · simp [resolve_session_identifier_and_index]
  · simp [readPageTokenLossy]

/-- Witness for the amended C9 at a concrete failing messages file. -/
theorem cache_read_errors_surfaced_except_token_witness :
    ({ emptyDir with messages := some (Except.error ("boom")) } : SessionCacheDir).messages =
      some (Except.error ("boom")) ∧
    fetch_activities 1 fetchEmptyTail { emptyDir with messages := some (Except.error ("boom")) } =
      ({ emptyDir with messages := some (Except.error ("boom")) }, Except.error ("boom")) :=
  ⟨rfl,
    (cache_read_errors_surfaced_except_token 1 fetchEmptyTail
      { emptyDir with messages := some (Except.error ("boom")) } ("boom") ("x")
      (Except.ok []) []).1 rfl⟩

/-- Helper: an identifier that parses as a usize cannot start with the
alias sigil. -/
theorem parseUsize_head_ne_at (s : String) (k : Nat)
    (h : parseUsize s = some k) : ¬ s.data.head? = some '@' := by
  intro hh
  cases hd : s.data with
  | nil => rw [hd] at hh; simp at hh
  | cons c rest =>
    rw [hd] at hh
    simp only [List.head?_cons, Option.some.injEq] at hh
    subst hh
    rw [parseUsize, hd] at h
    simp at h

/-- C5: the resolver checks the roster for emptiness first (the
empty-roster error regardless of identifier shape, even when the alias
read would fail); an `@`-identifier goes through the alias map
(alias-not-found when absent, the session with its 1-based position when
the mapped ID is in the roster, stale-alias otherwise); an identifier
parsing as a usize is a 1-based index (`0` invalid, out-of-range an
error, otherwise the session at that index); any other identifier is a
literal session ID matched against the roster (with its 1-based
position, or an error when absent). -/
theorem resolver_branch_semantics
    (identifier : String) (sessions : List CachedSession) (aliases : Aliases)
    (aliasesRead : Except String Aliases) (session_id : String) (n i : Nat)
    (s : CachedSession) :
    (resolve_session_identifier_and_index identifier (Except.ok []) aliasesRead =
      Except.error emptyRosterMsg) ∧
    (sessions ≠ [] → identifier.data.head? = some '@' →
      List.lookup identifier aliases = none →
      resolve_session_identifier_and_index identifier (Except.ok sessions)
        (Except.ok aliases) = Except.error (aliasNotFoundMsg identifier)) ∧
    (sessions ≠ [] → identifier.data.head? = some '@' →
      List.lookup identifier aliases = some session_id →
      sessions.findIdx? (fun x => x.id == session_id) = some i →
      resolve_session_identifier_and_index identifier (Except.ok sessions)
        (Except.ok aliases) = Except.ok (session_id, i + 1)) ∧
    (sessions ≠ [] → identifier.data.head? = some '@' →
      List.lookup identifier aliases = some session_id →
      sessions.findIdx? (fun x => x.id == session_id) = none →
      resolve_session_identifier_and_index identifier (Except.ok sessions)
        (Except.ok aliases) = Except.error (staleAliasMsg session_id identifier)) ∧
    (sessions ≠ [] → ¬ identifier.data.head? = some '@' →
      parseUsize identifier = some 0 →
      resolve_session_identifier_and_index identifier (Except.ok sessions)
        aliasesRead = Except.error nonPositiveIndexMsg) ∧
    (sessions ≠ [] → ¬ identifier.data.head? = some '@' →
      parseUsize identifier = some n → n ≠ 0 →
      sessions[n - 1]? = some s →
      resolve_session_identifier_and_index identifier (Except.ok sessions)
        aliasesRead = Except.ok (s.id, n)) ∧
    (sessions ≠ [] → ¬ identifier.data.head? = some '@' →
      parseUsize identifier = some n → n ≠ 0 →
      sessions[n - 1]? = none →
      resolve_session_identifier_and_index identifier (Except.ok sessions)
        aliasesRead = Except.error indexOutOfBoundsMsg) ∧
    (sessions ≠ [] → ¬ identifier.data.head? = some '@' →
      parseUsize identifier = none →
      sessions.findIdx? (fun x => x.id == identifier) = some i →
      resolve_session_identifier_and_index identifier (Except.ok sessions)
        aliasesRead = Except.ok (identifier, i + 1)) ∧
    (sessions ≠ [] → ¬ identifier.data.head? = some '@' →
      parseUsize identifier = none →
      sessions.findIdx? (fun x => x.id == identifier) = none →
      resolve_session_identifier_and_index identifier (Except.ok sessions)
        aliasesRead = Except.error (sessionNotFoundMsg identifier)) := by
  refine ⟨?_, ?_, ?_, ?_, ?_, ?_, ?_, ?_, ?_⟩ <;>
    intros <;>
    simp [resolve_session_identifier_and_index, *]

/-- Witness for C5: the empty roster wins over identifier shape, and a
valid numeric index resolves on the concrete roster; an unknown alias
fails with the alias-not-found error. -/
theorem resolver_branch_semantics_witness :
    resolve_session_identifier_and_index ("@x") (Except.ok [])
      (Except.error ("unreadable")) = Except.error emptyRosterMsg ∧
    (rosterAB ≠ [] ∧ ¬ ("2" : String).data.head? = some '@' ∧
      parseUsize ("2") = some 2 ∧ (2 : Nat) ≠ 0 ∧
      rosterAB[2 - 1]? = some { id := "sess-b", title := "B", source_context := none } ∧
      resolve_session_identifier_and_index ("2") (Except.ok rosterAB)
        (Except.ok []) = Except.ok ("sess-b", 2)) ∧
    (("@y" : String).data.head? = some '@' ∧
      List.lookup ("@y") ([] : Aliases) = none ∧
      resolve_session_identifier_and_index ("@y") (Except.ok rosterAB)
        (Except.ok []) = Except.error (aliasNotFoundMsg ("@y"))) :=
  ⟨(resolver_branch_semantics ("@x") [] [] (Except.error ("unreadable")) ("") 0 0
      { id := "", title := "", source_context := none }).1,
   ⟨by decide, by decide, by rfl, by decide, by rfl,
     (resolver_branch_semantics ("2") rosterAB [] (Except.ok []) ("") 2 0
        { id := "sess-b", title := "B", source_context := none }).2.2.2.2.2.1
       (by decide) (by decide) (by rfl) (by decide) (by rfl)⟩,
   ⟨by decide, by rfl,
     (resolver_branch_semantics ("@y") rosterAB [] (Except.ok []) ("") 0 0
        { id := "", title := "", source_context := none }).2.1
       (by decide) (by decide) (by rfl)⟩⟩

/-- C6: creating an alias for the session at (1-based) index `k` and
then resolving the alias yields the same session ID as resolving the
index directly; and deleting that session removes exactly the aliases
that map to its ID. -/
theorem alias_resolves_like_index_and_deletion_removes_aliases
    (sessions : List CachedSession) (aliases : Aliases) (k : Nat)
    (s : CachedSession) (alias_name numStr : String)
    (hk : k ≠ 0) (hs : sessions[k - 1]? = some s)
    (ha : alias_name.data.head? = some '@')
    (hnum : parseUsize numStr = some k) :
    (resolve_session_identifier_and_index numStr (Except.ok sessions)
      (Except.ok aliases) = Except.ok (s.id, k)) ∧
    (∃ i, resolve_session_identifier_and_index alias_name (Except.ok sessions)
      (Except.ok (aliasInsert aliases alias_name s.id)) = Except.ok (s.id, i)) ∧
    (∀ p ∈ update_aliases_after_deletion s.id aliases, p.2 ≠ s.id) ∧
    (∀ p ∈ aliases, p.2 ≠ s.id → p ∈ update_aliases_after_deletion s.id aliases) := by
  have hne : sessions ≠ [] := by
    intro h
    rw [h] at hs
    simp at hs
  have hmem : s ∈ sessions := List.getElem?_mem hs
  refine ⟨?_, ?_, ?_, ?_⟩
  · have hat := parseUsize_head_ne_at numStr k hnum
    simp [resolve_session_identifier_and_index, hne, hat, hnum, hk, hs]
  · have hsome : (sessions.findIdx? (fun x => x.id == s.id)).isSome := by
      rw [List.findIdx?_isSome, List.any_eq_true]
      exact ⟨s, hmem, by simp⟩
    obtain ⟨i, hi⟩ := Option.isSome_iff_exists.mp hsome
    refine ⟨i + 1, ?_⟩
    have hlk : List.lookup alias_name (aliasInsert aliases alias_name s.id) =
        some s.id := by
      simp [aliasInsert, List.lookup]
    simp [resolve_session_identifier_and_index, hne, ha, hlk, hi]
  · intro p hp
    simp only [update_aliases_after_deletion, List.mem_filter, bne_iff_ne, ne_eq] at hp
    exact hp.2
  · intro p hp hne'
    simp only [update_aliases_after_deletion, List.mem_filter, bne_iff_ne, ne_eq]
    exact ⟨hp, hne'⟩

/-- Witness for C6 on the concrete roster: alias `@x` for index 2
resolves to the same session ID as index 2, and deleting that session
removes every alias mapping to it. -/
theorem alias_resolves_like_index_and_deletion_removes_aliases_witness :
    (2 : Nat) ≠ 0 ∧
    rosterAB[2 - 1]? = some { id := "sess-b", title := "B", source_context := none } ∧
    ("@x" : String).data.head? = some '@' ∧
    parseUsize ("2") = some 2 ∧
    (resolve_session_identifier_and_index ("2") (Except.ok rosterAB)
        (Except.ok []) = Except.ok ("sess-b", 2) ∧
      (∃ i, resolve_session_identifier_and_index ("@x") (Except.ok rosterAB)
        (Except.ok (aliasInsert [] ("@x") ("sess-b"))) = Except.ok ("sess-b", i)) ∧
      (∀ p ∈ update_aliases_after_deletion ("sess-b") [], p.2 ≠ "sess-b") ∧
      (∀ p ∈ ([] : Aliases), p.2 ≠ "sess-b" →
        p ∈ update_aliases_after_deletion ("sess-b") [])) :=
  ⟨by decide, by rfl, by decide, by rfl,
    alias_resolves_like_index_and_deletion_removes_aliases rosterAB [] 2
      { id := "sess-b", title := "B", source_context := none } ("@x") ("2")
      (by decide) (by rfl) (by decide) (by rfl)⟩

/-- C7: reconciling the cached roster against a freshly listed live
roster keeps exactly the cached entries whose ID is live (in their
original relative order, as a sublist), appends the listed sessions
whose ID is not among the survivors in the order received, and in the
same operation keeps exactly the aliases whose target ID is live —
removing every alias that pointed at a removed entry. -/
theorem roster_reconciliation_semantics
    (sessions_list : List Session) (cached : List CachedSession)
    (aliases : Aliases) (live : List String) (surv : List CachedSession)
    (hlive : live = sessions_list.map (fun s => s.id))
    (hsurv : surv = cached.filter (fun cs => live.contains cs.id)) :
    ((manage_sessions_cache sessions_list cached aliases).1 =
      surv ++ (sessions_list.filter
          (fun s => !((surv.map (fun cs => cs.id)).contains s.id))).map
        (fun s => { id := s.id, title := s.title, source_context := s.source_context })) ∧
    surv.Sublist cached ∧
    (∀ cs ∈ cached, live.contains cs.id = true → cs ∈ surv) ∧
    (∀ cs ∈ (manage_sessions_cache sessions_list cached aliases).1,
      live.contains cs.id = true) ∧
    (∀ p : String × String,
      p ∈ (manage_sessions_cache sessions_list cached aliases).2 ↔
        p ∈ aliases ∧ live.contains p.2 = true) := by
  subst hlive
  subst hsurv
  refine ⟨rfl, List.filter_sublist cached, ?_, ?_, ?_⟩
  · intro cs hcs hl
    exact List.mem_filter.mpr ⟨hcs, hl⟩
  · intro cs hcs
    rw [manage_sessions_cache] at hcs
    simp only [List.mem_append] at hcs
    cases hcs with
    | inl h => exact (List.mem_filter.mp h).2
    | inr h =>
      simp only [List.mem_map, List.mem_filter] at h
      obtain ⟨x, ⟨hx, -⟩, hcs⟩ := h
      rw [← hcs]
      simp only [List.contains, List.elem_iff, List.mem_map]
      exact ⟨x, hx, rfl⟩
  · intro p
    rw [manage_sessions_cache]
    simp [List.mem_filter]

/-- Witness for C7 on a concrete reconciliation: cached session `old`
vanishes (taking its alias with it) and listed session `new` is
appended after the surviving entry. -/
theorem roster_reconciliation_semantics_witness :
    (["sess-a", "sess-new"] : List String) =
      ([{ name := "A", id := "sess-a", state := none, title := "A",
          source_context := none, pull_request_url := none },
        { name := "N", id := "sess-new", state := none, title := "N",
          source_context := none, pull_request_url := none }] : List Session).map
        (fun s => s.id) ∧
    ([{ id := "sess-a", title := "A", source_context := none }] : List CachedSession) =
      rosterAB.filter (fun cs => (["sess-a", "sess-new"] : List String).contains cs.id) ∧
    ([{ id := "sess-a", title := "A", source_context := none }] : List CachedSession).Sublist
      rosterAB :=
  ⟨rfl, by rfl,
    (roster_reconciliation_semantics
      [{ name := "A", id := "sess-a", state := none, title := "A",
         source_context := none, pull_request_url := none },
       { name := "N", id := "sess-new", state := none, title := "N",
         source_context := none, pull_request_url := none }]
      rosterAB [(("@a" : String), ("sess-b" : String))]
      ["sess-a", "sess-new"]
      [{ id := "sess-a", title := "A", source_context := none }]
      rfl (by rfl)).2.1⟩

/-- Helper: once the cursor already holds the last agent activity's ID,
further ticks with an unchanged activity list emit nothing and leave the
cursor in place. -/
theorem ticksFor_unchanged (n : Nat) (display : String) (acts : List Activity)
    (a : Activity) (h : lastAgentActivity acts = some a) :
    ticksFor n (some a.id) display (Except.ok acts) = (0, some a.id) := by
  induction n with
  | zero => rfl
  | succ m ih => simp [ticksFor, tickSession, h, ih]

/-- Helper: a run of ticks over an unchanged activity list, starting
from a cursor that differs from the last agent activity's ID, emits
one notification when the activity is of a notifiable kind and zero
otherwise; the cursor advances to the activity's ID either way. -/
theorem ticksFor_run (n : Nat) (cursor : Option String) (display : String)
    (acts : List Activity) (a : Activity)
    (h : lastAgentActivity acts = some a) (hc : ¬ cursor = some a.id)
    (hn : 1 ≤ n) :
    ticksFor n cursor display (Except.ok acts) =
      ((if (notification_message display a).isSome then 1 else 0), some a.id) := by
  obtain ⟨m, rfl⟩ : ∃ m, n = m + 1 := ⟨n - 1, by omega⟩
  simp [ticksFor, tickSession, h, hc, ticksFor_unchanged m display acts a h]

/-- C4 counterexample: a last agent activity that is none of the four
notifiable kinds (here, session-completed).  Its ID is fixed across 3
consecutive ticks, yet zero notifications are emitted in total — not
exactly one — because `notification_message` produces nothing for it
(the cursor still advances). -/
theorem watcher_one_notification_counterexample :
    lastAgentActivity [completedActivity] = some completedActivity ∧
    completedActivity.originator = "agent" ∧
    notification_message ("*T*") completedActivity = none ∧
    (ticksFor 3 none ("*T*") (Except.ok [completedActivity])).1 = 0 :=
  ⟨rfl, rfl, rfl, rfl⟩

/-- C4 amended: with a fixed last agent activity across N ≥ 1 ticks, the
total number of notifications is exactly one when the activity is of a
notifiable kind (agent message, plan generated, progress update, or
artifacts) and zero otherwise, the cursor ending at its ID; a changed
last agent activity ID triggers exactly one more under the same
proviso; no tick ever emits more than one notification per session, and
a tick whose cursor already holds the last activity's ID emits
nothing. -/
theorem watcher_notification_dedup
    (n : Nat) (cursor : Option String) (display : String)
    (acts acts' : List Activity) (a a' : Activity)
    (h : lastAgentActivity acts = some a) (hc : ¬ cursor = some a.id)
    (hn : 1 ≤ n) :
    (ticksFor n cursor display (Except.ok acts) =
      ((if (notification_message display a).isSome then 1 else 0), some a.id)) ∧
    (∀ c fetched, (tickSession c display fetched).1 ≤ 1) ∧
    (tickSession (some a.id) display (Except.ok acts) = (0, some a.id)) ∧
    (∀ m, 1 ≤ m → lastAgentActivity acts' = some a' → ¬ a'.id = a.id →
      ticksFor m (some a.id) display (Except.ok acts') =
        ((if (notification_message display a').isSome then 1 else 0), some a'.id)) := by
  refine ⟨ticksFor_run n cursor display acts a h hc hn, ?_, ?_, ?_⟩
  · intro c fetched
    cases fetched with
    | error e => simp [tickSession]
    | ok activities =>
      cases hla : lastAgentActivity activities with
      | none => simp [tickSession, hla]
      | some la =>
        by_cases hceq : c = some la.id
        · simp [tickSession, hla, hceq]
        · have hone : (if (notification_message display la).isSome then 1 else 0) ≤ 1 := by
            split <;> simp
          simpa [tickSession, hla, hceq] using hone
  · simp [tickSession, h]
  · intro m hm hla hne
    refine ticksFor_run m (some a.id) display acts' a' hla ?_ hm
    simp [hne]
    intro hcontra
    exact hne (by rw [hcontra])

/-- Witness for the amended C4: an agent message activity (notifiable)
emits exactly one notification over 2 ticks. -/
theorem watcher_notification_dedup_witness :
    lastAgentActivity [agentMsgActivity] = some agentMsgActivity ∧
    ¬ (none : Option String) = some agentMsgActivity.id ∧
    (1 : Nat) ≤ 2 ∧
    ticksFor 2 none ("*T*") (Except.ok [agentMsgActivity]) =
      ((if (notification_message ("*T*") agentMsgActivity).isSome then 1 else 0),
        some agentMsgActivity.id) :=
  ⟨rfl, by simp, by decide,
    (watcher_notification_dedup 2 none ("*T*") [agentMsgActivity] []
      agentMsgActivity agentMsgActivity rfl (by simp) (by decide)).1⟩

/-- C8: a session whose activity fetch fails contributes nothing to the
watcher tick: the sweep over the remaining sessions proceeds as if the
failed session were absent, and in particular its last-notified cursor
is left untouched, so the same activity is retried next tick. -/
theorem watcher_error_session_skipped (pre post : List WatchedSession)
    (sid display e : String) (cursors : String → Option String) :
    tickSweep (pre ++
        { session_id := sid, display := display, fetched := Except.error e } :: post)
      cursors = tickSweep (pre ++ post) cursors := by
  induction pre generalizing cursors with
  | nil =>
    simp only [List.nil_append]
    rw [tickSweep]
    have ht : tickSession (cursors sid) display (Except.error e) = (0, cursors sid) := rfl
    rw [ht]
    simp [Function.update_eq_self]
  | cons w rest ih =>
    simp only [List.cons_append]
    rw [tickSweep, tickSweep]
    rw [ih]

end Julezz
